import Mathlib

/-!
Verification of the MLX LLaMA-2-13B demo scripts
(`src/MLX/run_llama.py`, `src/MLX/chat_llama.py`, `src/MLX/benchmark.py`).

The scripts delegate model loading and text generation to the external
`mlx_lm` library (`load`, `generate`).  The embedding treats the library as
opaque: `load(path)` returns symbolic `Model.fromLoad path` /
`Tokenizer.fromLoad path` values, a call to `generate` is recorded as a
`GenCall` record holding exactly the arguments the script passed, and the
outcome of a library call (the returned string, or a raised exception) is a
parameter of the embedded function.  Wall-clock timing and memory probes
(`time.time()`, `psutil`) are not modelled; prints that only echo them are
elided, prints in exception handlers are kept verbatim.
-/

namespace MLXDemo

/-- A model value: the scripts only ever obtain one from the library `load`. -/
inductive Model where
  | fromLoad (path : String)
deriving DecidableEq

/-- A tokenizer value, likewise only obtained from the library `load`. -/
inductive Tokenizer where
  | fromLoad (path : String)
deriving DecidableEq

/-- The arguments of one call to the library `generate`, in the order the
scripts pass them: `generate(model, tokenizer, prompt, max_tokens=...,
temperature=..., top_p=..., [stop=...])`.  Float literals 0.7 / 0.9 are
embedded as the rationals 7/10 / 9/10. -/
structure GenCall where
  model : Model
  tokenizer : Tokenizer
  prompt : String
  max_tokens : Nat
  temperature : ℚ
  top_p : ℚ
  stop : Option (List String)
deriving DecidableEq

/-- Observable operations of a script run, for ordering claims:
CLI parsing, the library `load`, the library `generate`. -/
inductive Event where
  | parse_args
  | load_call (path : String)
  | generate_call (c : GenCall)
deriving DecidableEq

def isParse : Event → Bool
  | .parse_args => true
  | _ => false

def isLoad : Event → Bool
  | .load_call _ => true
  | _ => false

def isGen : Event → Bool
  | .generate_call _ => true
  | _ => false

/-- Scans a trace up to its first `load_call`: no `generate_call` may occur
before it, and no further `load_call` after it. -/
def preLoadOk : List Event → Bool
  | [] => false
  | e :: rest =>
    if isLoad e then rest.countP isLoad == 0
    else if isGen e then false
    else preLoadOk rest

/-- The ordering demanded by the spec: CLI parsing first, then exactly one
`load`, and every `generate` after the `load`. -/
def wellOrdered : List Event → Bool
  | [] => false
  | e :: rest => isParse e && preLoadOk (e :: rest)

/-- A trace that parses flags, loads, and then actually generates. -/
def reachesLoadThenGen (t : List Event) : Bool :=
  wellOrdered t && t.any isGen

/-- The HuggingFace path every script falls back to when `--model` is absent. -/
def default_model_path : String := "TheBloke/Llama-2-13B-chat-AWQ"

/-- The outcome of one library `generate` call: the returned text, or the
exception it raised (carried as its message). -/
inductive GenOutcome where
  | ok (response : String)
  | raised (e : String)
deriving DecidableEq

end MLXDemo

namespace MLXDemo.Benchmark

/-- benchmark.py lines 33-39: the five fixed test prompts. -/
def test_prompts : List String :=
  [ "Hello, how are you?",
    "Explain the concept of machine learning in detail.",
    "Write a short story about a robot learning to paint.",
    "Describe the process of photosynthesis step by step with scientific accuracy.",
    "Generate a comprehensive analysis of the impact of artificial intelligence on modern society, including economic, social, and ethical considerations." ]

/-- benchmark.py lines 73-80: the `generate` call made inside the run loop —
fixed `max_tokens=256, temperature=0.7, top_p=0.9`, no extra arguments. -/
def bench_gen_call (m : Model) (tok : Tokenizer) (prompt : String) : GenCall :=
  { model := m, tokenizer := tok, prompt := prompt, max_tokens := 256,
    temperature := 7/10, top_p := 9/10, stop := none }

/-- benchmark.py lines 60-90: for each of the five prompts in order, `num_runs`
identical `generate` calls. -/
def benchmark_model_calls (m : Model) (tok : Tokenizer) (num_runs : Nat) : List GenCall :=
  test_prompts.flatMap (fun p => (List.range num_runs).map (fun _ => bench_gen_call m tok p))

/-- benchmark.py `main` (136-168) together with `benchmark_model` (27-134), as
an event trace: parse the CLI flags, one `load` (line 48), then the generation
sweep. -/
def main_events (model_path : Option String) (num_runs : Nat) : List Event :=
  let p := model_path.getD default_model_path
  Event.parse_args :: Event.load_call p ::
    (benchmark_model_calls (.fromLoad p) (.fromLoad p) num_runs).map Event.generate_call

/-- benchmark.py `main` lines 165-168: both handlers print one line and do
nothing else (`except KeyboardInterrupt` / `except Exception as e`). -/
def main_keyboard_interrupt_prints : List String :=
  ["\n\nBenchmark interrupted by user"]

/-- The `except Exception as e` handler of benchmark.py `main` (167-168). -/
def main_exception_prints (e : String) : List String :=
  ["\n Benchmark failed: " ++ e]

end MLXDemo.Benchmark

namespace MLXDemo.RunLlama

/-- run_llama.py `main` line 79: the default prompt of the `--prompt` flag. -/
def default_prompt : String := "Explain what machine learning is in simple terms"

/-- run_llama.py lines 54-61: the `generate` call of `generate_text` —
the prompt is passed through unchanged, with `top_p=0.9` and no `stop`. -/
def run_gen_call (m : Model) (tok : Tokenizer) (prompt : String)
    (max_tokens : Nat) (temperature : ℚ) : GenCall :=
  { model := m, tokenizer := tok, prompt := prompt, max_tokens := max_tokens,
    temperature := temperature, top_p := 9/10, stop := none }

/-- run_llama.py lines 22-38 `load_model`: resolve the default path and call
the library `load`; if that call raised, print two lines and `sys.exit(1)`
(the `.error` code is the exit status). -/
def load_model (model_path : Option String) (loadRaised : Option String) :
    Except Nat (Model × Tokenizer) :=
  let p := model_path.getD default_model_path
  match loadRaised with
  | none => .ok (Model.fromLoad p, Tokenizer.fromLoad p)
  | some _ => .error 1

/-- The prints of `load_model`'s `except` handler (run_llama.py 35-38). -/
def load_model_error_prints (e : String) : List String :=
  ["Error loading model: " ++ e,
   "Make sure you have sufficient memory (32GB+ recommended)"]

/-- run_llama.py lines 40-75 `generate_text`, given the outcome of the library
call: the response on success, `None` after printing one line when the call
raised.  Timing/echo prints of the success branch (wall clock) are elided. -/
def generate_text (g : GenOutcome) : Option String × List String :=
  match g with
  | .ok r => (some r, [])
  | .raised e => (none, ["Error during generation: " ++ e])

/-- run_llama.py `main` (77-119) as an event trace: parse flags, one `load`;
if the load raised the script exits, otherwise exactly one `generate` with
the CLI prompt and parameters. -/
def main_events (model_path : Option String) (prompt : String)
    (max_tokens : Nat) (temperature : ℚ) (loadOk : Bool) : List Event :=
  let p := model_path.getD default_model_path
  Event.parse_args :: Event.load_call p ::
    (if loadOk then
      [Event.generate_call
        (run_gen_call (.fromLoad p) (.fromLoad p) prompt max_tokens temperature)]
     else [])

end MLXDemo.RunLlama

namespace MLXDemo.ChatLlama

/-- Python `str.strip()` over its default (ASCII) whitespace, as used on the
chat inputs. -/
def isSpaceChar (c : Char) : Bool :=
  c == ' ' || c == '\t' || c == '\n' || c == '\r'

/-- Python `str.strip()`: drop leading and trailing whitespace. -/
def pyStrip (s : String) : String :=
  ⟨((s.data.dropWhile isSpaceChar).reverse.dropWhile isSpaceChar).reverse⟩

/-- Python `str.lower()` (the chat inputs are ASCII). -/
def pyLower (s : String) : String := ⟨s.data.map Char.toLower⟩

/-- `pre` is an initial segment of `s` (Python `str.startswith`). -/
def leadsWith : List Char → List Char → Bool
  | [], _ => true
  | _ :: _, [] => false
  | a :: as, b :: bs => a == b && leadsWith as bs

/-- One entry of `conversation_history` (chat_llama.py line 36):
a `{"role": ..., "content": ...}` dict. -/
structure Message where
  role : String
  content : String
deriving DecidableEq

/-- The state a `LLaMAChat` object carries (chat_llama.py 21-32). -/
structure ChatState where
  model : Model
  tokenizer : Tokenizer
  max_tokens : Nat
  temperature : ℚ
  conversation_history : List Message
deriving DecidableEq

/-- chat_llama.py 21-32 `LLaMAChat.__init__`: one library `load`, empty
history, parameters stored. -/
def LLaMAChat_init (model_path : Option String) (max_tokens : Nat)
    (temperature : ℚ) : ChatState :=
  let p := model_path.getD default_model_path
  { model := .fromLoad p, tokenizer := .fromLoad p, max_tokens := max_tokens,
    temperature := temperature, conversation_history := [] }

/-- chat_llama.py 34-36 `add_to_history`. -/
def add_to_history (st : ChatState) (role content : String) : ChatState :=
  { st with conversation_history :=
      st.conversation_history ++ [{ role := role, content := content }] }

/-- chat_llama.py 38-41 `clear_history`. -/
def clear_history (st : ChatState) : ChatState :=
  { st with conversation_history := [] }

/-- chat_llama.py 51-58: rendering of one history slice in the chat template
(`role == "user"` gets the user block, every other role the assistant one). -/
def render_history (msgs : List Message) : String :=
  msgs.foldl (fun acc m =>
    if m.role = "user" then
      acc ++ "<|im_start|>user\n" ++ m.content ++ "<|im_end|>\n"
    else
      acc ++ "<|im_start|>assistant\n" ++ m.content ++ "<|im_end|>\n") ""

/-- Python `history[-8:]`: the last `n` elements (all of them when the list is
shorter). -/
def lastN (n : Nat) (l : List α) : List α := l.drop (l.length - n)

/-- chat_llama.py 43-59 `format_prompt`: for an empty history just the user
block and assistant header; otherwise the rendering of the last 8 history
messages followed by that same block. -/
def format_prompt (conversation_history : List Message) (user_input : String) : String :=
  if conversation_history = [] then
    "<|im_start|>user\n" ++ user_input ++ "<|im_end|>\n<|im_start|>assistant\n"
  else
    render_history (lastN 8 conversation_history) ++
      ("<|im_start|>user\n" ++ user_input ++ "<|im_end|>\n<|im_start|>assistant\n")

/-- The fixed fallback string returned by `generate_response`'s exception
handler (chat_llama.py line 91). -/
def chatApology : String :=
  "I apologize, but I encountered an error while generating a response. Please try again."

/-- chat_llama.py 77-80: strip the response; if it starts with
`"assistant\n"`, drop the first 10 characters and strip again. -/
def clean_response (r : String) : String :=
  let r := pyStrip r
  if leadsWith "assistant\n".data r.data then pyStrip ⟨r.data.drop 10⟩ else r

/-- chat_llama.py 61-75: the `generate` call built inside `generate_response`
(its prompt comes from `format_prompt` on the current history, and it passes
an extra `stop` list the other scripts do not). -/
def chat_gen_call (st : ChatState) (user_input : String) : GenCall :=
  { model := st.model, tokenizer := st.tokenizer,
    prompt := format_prompt st.conversation_history user_input,
    max_tokens := st.max_tokens, temperature := st.temperature,
    top_p := 9/10, stop := some ["<|im_end|>", "<|im_start|>"] }

/-- chat_llama.py 61-91 `generate_response`, given the outcome of the library
call: the cleaned response on success; on a raised exception one printed line
and the fixed apology string as the returned value.  Token-count/timing
prints of the success branch (wall clock) are elided. -/
def generate_response (g : GenOutcome) : String × List String :=
  match g with
  | .ok r => (clean_response r, [])
  | .raised e => (chatApology, ["Error generating response: " ++ e])

/-- chat_llama.py 97-131: one iteration of the chat loop on a line read from
the user, given the outcome the library call would have.  Returns the new
state, whether the loop continues, and the `generate` events of the
iteration. -/
def chatStep (st : ChatState) (raw : String) (g : GenOutcome) :
    ChatState × Bool × List Event :=
  if pyStrip raw = "" then (st, true, [])
  else if pyLower (pyStrip raw) = "quit" ∨ pyLower (pyStrip raw) = "exit" ∨
          pyLower (pyStrip raw) = "bye" then (st, false, [])
  else if pyLower (pyStrip raw) = "clear" then (clear_history st, true, [])
  else if pyLower (pyStrip raw) = "help" then (st, true, [])
  else if pyLower (pyStrip raw) = "history" then (st, true, [])
  else if pyLower (pyStrip raw) = "stats" then (st, true, [])
  else
    (add_to_history (add_to_history st "user" (pyStrip raw)) "assistant"
        (generate_response g).1,
     true,
     [Event.generate_call
        (chat_gen_call (add_to_history st "user" (pyStrip raw)) (pyStrip raw))])

/-- The chat loop (chat_llama.py 97-137) over a list of input lines, each
paired with the outcome its generation would have; a `quit`-style line stops
the loop.  Returns the final history and the emitted `generate` events. -/
def chatRun (st : ChatState) : List (String × GenOutcome) → List Message × List Event
  | [] => (st.conversation_history, [])
  | (s, g) :: rest =>
    if (chatStep st s g).2.1 then
      ((chatRun (chatStep st s g).1 rest).1,
        (chatStep st s g).2.2 ++ (chatRun (chatStep st s g).1 rest).2)
    else ((chatStep st s g).1.conversation_history, (chatStep st s g).2.2)

/-- chat_llama.py `main` (175-196) as written (see the indentation model
below for why it does not actually run): parse flags, the `load` of
`LLaMAChat.__init__`, then the chat loop. -/
def main_events (model_path : Option String) (max_tokens : Nat)
    (temperature : ℚ) (inputs : List (String × GenOutcome)) : List Event :=
  Event.parse_args :: Event.load_call (model_path.getD default_model_path) ::
    (chatRun (LLaMAChat_init model_path max_tokens temperature) inputs).2

/-- The chat loop's `except KeyboardInterrupt` / `except EOFError` handlers
(chat_llama.py 132-137): print one line and leave the loop. -/
def chat_interrupt_prints : List String := ["\n\nChat interrupted. Goodbye!"]

/-- The `except EOFError` handler's print (chat_llama.py 135-137). -/
def chat_eof_prints : List String := ["\n\nEnd of input. Goodbye!"]

/-- The roles of `msgs` alternate, the first one being `"user"` when
`expectUser` is set. -/
def rolesAlternateFrom (expectUser : Bool) : List Message → Bool
  | [] => true
  | m :: rest =>
    (if expectUser then m.role == "user" else m.role == "assistant") &&
      rolesAlternateFrom (!expectUser) rest

/-- The invariant of the conversation history reachable by the chat loop:
alternating roles starting with `"user"`, and complete turns (even length). -/
def goodHistory (h : List Message) : Prop :=
  rolesAlternateFrom true h = true ∧ h.length % 2 = 0

/-- The input line is a plain message for the chat loop: neither empty after
stripping nor one of the special commands of chat_llama.py 105-119. -/
def isMessageInput (s : String) : Bool :=
  decide (¬ (pyStrip s = "" ∨ pyLower (pyStrip s) = "quit" ∨
    pyLower (pyStrip s) = "exit" ∨ pyLower (pyStrip s) = "bye" ∨
    pyLower (pyStrip s) = "clear" ∨ pyLower (pyStrip s) = "help" ∨
    pyLower (pyStrip s) = "history" ∨ pyLower (pyStrip s) = "stats"))

/-- Claim C2's reading of the chat generation handler: beyond printing, a turn
whose generation raised would record no assistant reply (no substituted
result enters the conversation). -/
def raisedTurnAddsNoAssistantReply (st : ChatState) (s e : String) : Prop :=
  ((chatStep st s (.raised e)).1.conversation_history.countP
      (fun m => m.role == "assistant")) =
    (st.conversation_history.countP (fun m => m.role == "assistant"))

end MLXDemo.ChatLlama

namespace MLXDemo

/-- Every `generate` event in a trace uses exactly the model and tokenizer
values the `load` of path `p` returned. -/
def genUsesLoaded (p : String) : Event → Bool
  | .generate_call c =>
      decide (c.model = Model.fromLoad p) && decide (c.tokenizer = Tokenizer.fromLoad p)
  | _ => true

end MLXDemo

namespace MLXDemo.Indent

/-!
A model of CPython's block-structure (indentation) rules, enough to decide
whether a statement suite compiles at all.  A logical statement line is its
indentation column plus whether it is a compound-statement header (ends in
`:` and opens a suite).  Comment-only lines, blank lines and the
continuation lines of a parenthesised call are not statements.  The rules:
after a header the next statement must be strictly more indented (a new
suite is pushed); otherwise the statement's indentation must equal the
innermost open suite's or pop back to an enclosing suite's exact level —
a larger indentation is an `IndentationError: unexpected indent`.
-/

/-- One logical statement line: indentation column and whether it opens a
block (`if`/`for`/`try`/`with`/`def`/`else`/`except` headers). -/
structure Stmt where
  indent : Nat
  opensBlock : Bool
deriving DecidableEq

/-- Pop suites until the innermost open level equals `i`; `none` when `i`
matches no open level (in particular when `i` is larger than the innermost
one: an unexpected indent). -/
def popTo (i : Nat) : List Nat → Option (List Nat)
  | [] => none
  | top :: rest =>
    if i = top then some (top :: rest)
    else if i < top then popTo i rest
    else none

/-- Walk the statement list with the stack of open suite levels; `afterHeader`
means the previous statement opened a block, whose suite must now begin with
a strictly larger indentation. -/
def indentCheck (stack : List Nat) (afterHeader : Bool) : List Stmt → Bool
  | [] => !afterHeader
  | s :: rest =>
    if afterHeader then
      match stack with
      | [] => false
      | top :: _ =>
        if top < s.indent then indentCheck (s.indent :: stack) s.opensBlock rest
        else false
    else
      match popTo s.indent stack with
      | some stack2 => indentCheck stack2 s.opensBlock rest
      | none => false

/-- The body of a `def` written at column 0 compiles iff its statement list
passes the check starting just after that header. -/
def suiteAccepted (body : List Stmt) : Bool := indentCheck [0] true body

/-- chat_llama.py `main` body (lines 176-196) with the measured indentation of
each logical statement: lines 176, 177, 179, 181, 184 at column 4, then line
186 (`print("MLX LLaMA-2-13B Interactive Chat")`) at column 12, then lines
187, 190, 191, 192, 195, 196 at column 4.  None is a compound header. -/
def chat_main_body : List Stmt :=
  [⟨4, false⟩, ⟨4, false⟩, ⟨4, false⟩, ⟨4, false⟩, ⟨4, false⟩,
   ⟨12, false⟩,
   ⟨4, false⟩, ⟨4, false⟩, ⟨4, false⟩, ⟨4, false⟩, ⟨4, false⟩, ⟨4, false⟩]

/-- run_llama.py `main` body (lines 78-116): simple statements at column 4,
an `if` header (96) with one line at 8, two `if`/`else` headers (113, 115)
with one line at 8 each. -/
def run_main_body : List Stmt :=
  [⟨4, false⟩, ⟨4, false⟩, ⟨4, false⟩, ⟨4, false⟩, ⟨4, false⟩, ⟨4, false⟩,
   ⟨4, false⟩, ⟨4, false⟩, ⟨4, false⟩, ⟨4, false⟩,
   ⟨4, true⟩, ⟨8, false⟩,
   ⟨4, false⟩, ⟨4, false⟩, ⟨4, false⟩, ⟨4, false⟩,
   ⟨4, true⟩, ⟨8, false⟩, ⟨4, true⟩, ⟨8, false⟩]

/-- benchmark.py `main` body (lines 137-168): flag parsing at column 4, a
`try:` whose suite sits at 8, a `with` at 8 whose suite sits at 12, a `for`
at 12 whose suite sits at 16, then the two `except` headers back at 4 with
one printed line at 8 each. -/
def bench_main_body : List Stmt :=
  [⟨4, false⟩, ⟨4, false⟩, ⟨4, false⟩, ⟨4, false⟩,
   ⟨4, true⟩, ⟨8, false⟩, ⟨8, false⟩, ⟨8, false⟩,
   ⟨8, true⟩, ⟨12, false⟩, ⟨12, false⟩,
   ⟨12, true⟩, ⟨16, false⟩, ⟨16, false⟩, ⟨16, false⟩, ⟨16, false⟩, ⟨16, false⟩,
   ⟨8, false⟩,
   ⟨4, true⟩, ⟨8, false⟩, ⟨4, true⟩, ⟨8, false⟩]

end MLXDemo.Indent

namespace MLXDemo.Benchmark

/-- Python's division, raising `ZeroDivisionError` on a zero denominator. -/
inductive PyError where
  | zeroDivisionError
deriving DecidableEq

/-- `a / b` as Python evaluates it. -/
def pyDiv (a b : ℚ) : Except PyError ℚ :=
  if b = 0 then .error .zeroDivisionError else .ok (a / b)

/-- The measurements of one generation run: elapsed time and the token count
of the response (benchmark.py 82-86), supplied as an oracle since both come
from the environment. -/
structure RunSample where
  time : ℚ
  tokens : ℚ

/-- The per-prompt record appended to `results` (benchmark.py 96-102). -/
structure PromptResult where
  prompt : String
  input_tokens : ℚ
  avg_output_tokens : ℚ
  avg_generation_time : ℚ
  avg_tokens_per_second : ℚ

/-- benchmark.py 60-107, the body of the per-prompt loop: collect `num_runs`
samples, then the three averages, each a Python division
(`sum(...) / len(...)` twice, then tokens per second). -/
def prompt_result (encodeLen : String → ℚ) (sample : Nat → RunSample)
    (num_runs : Nat) (p : String) : Except PyError PromptResult := do
  let generation_times := (List.range num_runs).map (fun r => (sample r).time)
  let token_counts := (List.range num_runs).map (fun r => (sample r).tokens)
  let avg_generation_time ← pyDiv generation_times.sum (generation_times.length : ℚ)
  let avg_tokens ← pyDiv token_counts.sum (token_counts.length : ℚ)
  let avg_tokens_per_second ← pyDiv avg_tokens avg_generation_time
  .ok { prompt := p, input_tokens := encodeLen p,
        avg_output_tokens := avg_tokens,
        avg_generation_time := avg_generation_time,
        avg_tokens_per_second := avg_tokens_per_second }

/-- The final summary block of `benchmark_model` (benchmark.py 109-134). -/
structure BenchSummary where
  results : List PromptResult
  total_input_tokens : ℚ
  total_output_tokens : ℚ
  total_time : ℚ
  overall_speed : ℚ
  rating : String

/-- benchmark.py 27-134 `benchmark_model`'s arithmetic: the per-prompt loop
over the five test prompts, then the summary totals, the overall speed (one
more Python division) and the threshold rating of lines 123-130. -/
def benchmark_model (encodeLen : String → ℚ) (sample : Nat → Nat → RunSample)
    (num_runs : Nat) : Except PyError BenchSummary := do
  let results ← (test_prompts.zip (List.range test_prompts.length)).mapM
    (fun pi => prompt_result encodeLen (sample pi.2) num_runs pi.1)
  let total_input_tokens := (results.map (fun r => r.input_tokens)).sum
  let total_output_tokens := (results.map (fun r => r.avg_output_tokens)).sum
  let total_time := (results.map (fun r => r.avg_generation_time)).sum
  let overall_speed ← pyDiv total_output_tokens total_time
  .ok { results := results,
        total_input_tokens := total_input_tokens,
        total_output_tokens := total_output_tokens,
        total_time := total_time,
        overall_speed := overall_speed,
        rating :=
          if 15 ≤ overall_speed then "Excellent"
          else if 10 ≤ overall_speed then "Good"
          else if 5 ≤ overall_speed then "Acceptable"
          else "Slow" }

end MLXDemo.Benchmark

/-!
## Supporting lemmas
-/

namespace MLXDemo.ChatLlama

theorem rolesAlternateFrom_append (t : List Message) :
    ∀ (h : List Message) (b : Bool),
      rolesAlternateFrom b (h ++ t) =
        (rolesAlternateFrom b h &&
          rolesAlternateFrom (if h.length % 2 = 0 then b else !b) t)
  | [], b => by simp [rolesAlternateFrom]
  | m :: h, b => by
    have ih := rolesAlternateFrom_append t h (!b)
    simp only [List.cons_append, rolesAlternateFrom, List.length_cons, List.append_eq]
    rw [ih]
    rcases Nat.mod_two_eq_zero_or_one h.length with h0 | h1
    · have h2 : (h.length + 1) % 2 = 1 := by omega
      simp [h0, h2, Bool.and_assoc]
    · have h2 : (h.length + 1) % 2 = 0 := by omega
      simp [h1, h2, Bool.and_assoc]

theorem goodHistory_chatStep (st : ChatState) (s : String) (g : GenOutcome)
    (hh : goodHistory st.conversation_history) :
    goodHistory (chatStep st s g).1.conversation_history := by
  unfold goodHistory at hh ⊢
  obtain ⟨ha, hl⟩ := hh
  unfold chatStep
  split_ifs <;> try exact ⟨ha, hl⟩
  · exact ⟨rfl, rfl⟩
  · constructor
    · show rolesAlternateFrom true
        ((st.conversation_history ++ [⟨"user", pyStrip s⟩]) ++
          [⟨"assistant", (generate_response g).1⟩]) = true
      rw [List.append_assoc, rolesAlternateFrom_append]
      simp [ha, hl, rolesAlternateFrom]
    · show ((st.conversation_history ++ [Message.mk "user" (pyStrip s)]) ++
          [Message.mk "assistant" (generate_response g).1]).length % 2 = 0
      simp [List.length_append]
      omega

theorem goodHistory_chatRun :
    ∀ (inputs : List (String × GenOutcome)) (st : ChatState),
      goodHistory st.conversation_history →
      goodHistory (chatRun st inputs).1
  | [], _, hh => hh
  | (s, g) :: rest, st, hh => by
    unfold chatRun
    by_cases hc : (chatStep st s g).2.1 = true
    · simp only [hc, if_true]
      exact goodHistory_chatRun rest _ (goodHistory_chatStep st s g hh)
    · simp only [hc, if_false]
      exact goodHistory_chatStep st s g hh

theorem rolesAlternateFrom_mem :
    ∀ (h : List Message) (b : Bool), rolesAlternateFrom b h = true →
      ∀ m ∈ h, m.role = "user" ∨ m.role = "assistant"
  | [], _, _, m, hm => absurd hm (List.not_mem_nil m)
  | x :: h, b, hb, m, hm => by
    rw [rolesAlternateFrom, Bool.and_eq_true] at hb
    rcases List.mem_cons.mp hm with rfl | hm'
    · rcases b with _ | _
      · right; exact eq_of_beq (by simpa using hb.1)
      · left; exact eq_of_beq (by simpa using hb.1)
    · exact rolesAlternateFrom_mem h (!b) hb.2 m hm'

theorem lastN_idem (l : List Message) : lastN 8 (lastN 8 l) = lastN 8 l := by
  unfold lastN
  rw [List.length_drop]
  have h : l.length - (l.length - 8) - 8 = 0 := by omega
  rw [h, List.drop_zero]

theorem lastN_ne_nil (l : List Message) (h : l ≠ []) : lastN 8 l ≠ [] := by
  unfold lastN
  intro hc
  have h1 : l.length ≠ 0 := by
    simpa using h
  have h2 := congrArg List.length hc
  rw [List.length_drop] at h2
  simp at h2
  omega

end MLXDemo.ChatLlama

namespace MLXDemo

open ChatLlama in
theorem countP_isLoad_map_gen : ∀ (l : List GenCall),
    (l.map Event.generate_call).countP isLoad = 0
  | [] => rfl
  | c :: l => by
    simp only [List.map_cons, List.countP_cons, countP_isLoad_map_gen l, isLoad]
    rfl

open ChatLlama in
theorem chatStep_model (st : ChatState) (s : String) (g : GenOutcome) :
    (chatStep st s g).1.model = st.model ∧
    (chatStep st s g).1.tokenizer = st.tokenizer := by
  unfold chatStep
  split_ifs <;> exact ⟨rfl, rfl⟩

open ChatLlama in
theorem chatStep_no_load (st : ChatState) (s : String) (g : GenOutcome) :
    (chatStep st s g).2.2.countP isLoad = 0 := by
  unfold chatStep
  split_ifs <;> rfl

open ChatLlama in
theorem chatStep_uses_model (p : String) (st : ChatState) (s : String) (g : GenOutcome)
    (hm : st.model = Model.fromLoad p) (ht : st.tokenizer = Tokenizer.fromLoad p) :
    (chatStep st s g).2.2.all (genUsesLoaded p) = true := by
  unfold chatStep
  split_ifs <;> simp [genUsesLoaded, chat_gen_call, add_to_history, hm, ht]

open ChatLlama in
theorem chatRun_no_load : ∀ (inputs : List (String × GenOutcome)) (st : ChatState),
    (chatRun st inputs).2.countP isLoad = 0
  | [], _ => rfl
  | (s, g) :: rest, st => by
    unfold chatRun
    by_cases hc : (chatStep st s g).2.1 = true
    · simp only [hc, if_true, List.countP_append, chatStep_no_load,
        chatRun_no_load rest]
    · simp only [hc]
      exact chatStep_no_load st s g

open ChatLlama in
theorem chatRun_uses_model (p : String) :
    ∀ (inputs : List (String × GenOutcome)) (st : ChatState),
      st.model = Model.fromLoad p → st.tokenizer = Tokenizer.fromLoad p →
      (chatRun st inputs).2.all (genUsesLoaded p) = true
  | [], _, _, _ => rfl
  | (s, g) :: rest, st, hm, ht => by
    unfold chatRun
    by_cases hc : (chatStep st s g).2.1 = true
    · simp only [hc, if_true, List.all_append, Bool.and_eq_true]
      refine ⟨chatStep_uses_model p st s g hm ht, ?_⟩
      exact chatRun_uses_model p rest _
        ((chatStep_model st s g).1.trans hm) ((chatStep_model st s g).2.trans ht)
    · simp only [hc]
      exact chatStep_uses_model p st s g hm ht

end MLXDemo

/-!
## Claims
-/

namespace MLXDemo

open Indent Benchmark RunLlama ChatLlama

/-- C1 (code_bug): the benchmark and single-shot runner, run as main programs,
parse their flags, reach the library `load` and then `generate`; the
interactive chat script, however, is not a runnable program: the statement at
chat_llama.py line 186 is indented to column 12 directly after a simple
statement at column 4, so CPython rejects the file with `IndentationError:
unexpected indent` before anything executes.  (The last conjunct shows the
chat `main` as written would also reach `load` and `generate` were the
indentation repaired.) -/
theorem C1_chat_script_indentation_bug :
    suiteAccepted chat_main_body = false
  ∧ suiteAccepted run_main_body = true
  ∧ suiteAccepted bench_main_body = true
  ∧ reachesLoadThenGen
      (RunLlama.main_events none default_prompt 512 (7/10) true) = true
  ∧ reachesLoadThenGen (Benchmark.main_events none 5) = true
  ∧ reachesLoadThenGen
      (ChatLlama.main_events none 512 (7/10) [("Hello", .ok "resp")]) = true := by
  refine ⟨by decide, by decide, by decide, by decide, ?_, by decide⟩
  decide

end MLXDemo

namespace MLXDemo

open Benchmark RunLlama ChatLlama

/-- C2 counterexample: the chat script's generation handler does more than
print: on a raised generation it returns the fixed apology string, and the
chat loop records that substituted reply in the conversation history (one new
assistant entry despite the failure). -/
theorem C2_handler_substitutes_apology :
    ¬ raisedTurnAddsNoAssistantReply (LLaMAChat_init none 512 (7/10)) "Hi" "boom"
  ∧ generate_response (.raised "boom")
      = (chatApology, ["Error generating response: boom"])
  ∧ chatApology ≠ "" := by
  refine ⟨?_, by decide, by decide⟩
  unfold raisedTurnAddsNoAssistantReply
  decide

/-- C2 amended: every handler prints a message about the failure, but not all
stop there: the chat generation handler returns the fixed apology string
(which the chat loop then records as the assistant reply of the turn),
run_llama's generation handler returns `None`, run_llama's load handler exits
with status 1, and only the benchmark `main` handlers (and the chat loop's
interrupt handlers) merely print. -/
theorem C2_handlers_print_and_fallback :
    (∀ e, generate_response (.raised e)
        = (chatApology, ["Error generating response: " ++ e]))
  ∧ (∀ e, RunLlama.generate_text (.raised e)
        = (none, ["Error during generation: " ++ e]))
  ∧ (∀ mp e, load_model mp (some e) = .error 1)
  ∧ (∀ e, Benchmark.main_exception_prints e = ["\n Benchmark failed: " ++ e])
  ∧ (∀ st s e, isMessageInput s = true →
      (chatStep st s (.raised e)).1.conversation_history
        = st.conversation_history ++
            [⟨"user", pyStrip s⟩, ⟨"assistant", chatApology⟩]) := by
  refine ⟨fun e => rfl, fun e => rfl, fun mp e => rfl, fun e => rfl, ?_⟩
  intro st s e h
  have h' := of_decide_eq_true h
  push_neg at h'
  obtain ⟨h1, h2, h3, h4, h5, h6, h7, h8⟩ := h'
  unfold chatStep
  rw [if_neg h1, if_neg (by tauto), if_neg h5, if_neg h6, if_neg h7, if_neg h8]
  simp [add_to_history, generate_response]

/-- C2 witness for the amended message-turn clause, at a concrete state and
input. -/
theorem C2_handlers_witness :
    isMessageInput "Hi" = true ∧
    (chatStep (LLaMAChat_init none 512 (7/10)) "Hi" (.raised "boom")).1.conversation_history
      = (LLaMAChat_init none 512 (7/10)).conversation_history ++
          [⟨"user", pyStrip "Hi"⟩, ⟨"assistant", chatApology⟩] :=
  ⟨by decide,
   C2_handlers_print_and_fallback.2.2.2.2
     (LLaMAChat_init none 512 (7/10)) "Hi" "boom" (by decide)⟩

/-- C3 counterexample: for the same user prompt "Hi" and sampling parameters
(max_tokens 512 is irrelevant here; take 256 / 0.7 as the benchmark fixes
them), the chat script does not pass the same prompt string as the runner —
it wraps it in the chat template (twice over, since the user message was
already appended to the history) — and it passes a `stop` argument the other
scripts do not. -/
theorem C3_chat_call_differs :
    (chat_gen_call (add_to_history (LLaMAChat_init none 256 (7/10)) "user" "Hi") "Hi").prompt
      ≠ (run_gen_call (.fromLoad default_model_path) (.fromLoad default_model_path)
          "Hi" 256 (7/10)).prompt
  ∧ (chat_gen_call (add_to_history (LLaMAChat_init none 256 (7/10)) "user" "Hi") "Hi").stop
      ≠ (run_gen_call (.fromLoad default_model_path) (.fromLoad default_model_path)
          "Hi" 256 (7/10)).stop
  ∧ (chatStep (LLaMAChat_init none 256 (7/10)) "Hi" (.ok "r")).2.2
      = [Event.generate_call
          (chat_gen_call (add_to_history (LLaMAChat_init none 256 (7/10)) "user" "Hi") "Hi")] :=
  ⟨by decide, by decide, rfl⟩

/-- C3 amended: the runner and the benchmark do pass the identical prompt and
argument set (the benchmark's call is the runner's at `max_tokens=256`,
`temperature=0.7`); the chat script differs exactly by routing the prompt
through `format_prompt` and adding the `stop` list. -/
theorem C3_amended_call_agreement :
    (∀ m tok p, bench_gen_call m tok p = run_gen_call m tok p 256 (7/10))
  ∧ (∀ st u, chat_gen_call st u =
      { run_gen_call st.model st.tokenizer
          (format_prompt st.conversation_history u) st.max_tokens st.temperature
        with stop := some ["<|im_end|>", "<|im_start|>"] }) :=
  ⟨fun m tok p => rfl, fun st u => rfl⟩

/-- C9: `format_prompt` renders at most the last 8 history messages, in
order, followed by the user block and assistant header; its value depends
only on those last 8 messages; and on an empty history it is exactly the
user block and assistant header. -/
theorem C9_format_prompt_last8 (h : List Message) (u : String) :
    format_prompt h u =
      render_history (lastN 8 h) ++
        ("<|im_start|>user\n" ++ u ++ "<|im_end|>\n<|im_start|>assistant\n")
  ∧ format_prompt h u = format_prompt (lastN 8 h) u
  ∧ format_prompt [] u
      = "<|im_start|>user\n" ++ u ++ "<|im_end|>\n<|im_start|>assistant\n" := by
  refine ⟨?_, ?_, rfl⟩
  · by_cases hh : h = []
    · subst hh; rfl
    · unfold format_prompt
      rw [if_neg hh]
  · by_cases hh : h = []
    · subst hh; rfl
    · unfold format_prompt
      rw [if_neg hh, if_neg (lastN_ne_nil h hh), lastN_idem]

end MLXDemo

namespace MLXDemo

open Benchmark RunLlama ChatLlama

/-- C4: in every execution of each script the trace is: CLI flag parsing
first, then exactly one library `load`, and every `generate` strictly after
it (this also holds for the chat `main` as written, which claim C1 shows
never actually runs). -/
theorem C4_parse_load_generate_order (mp : Option String) (prompt : String)
    (mt : Nat) (temp : ℚ) (loadOk : Bool) (n : Nat)
    (inputs : List (String × GenOutcome)) :
    wellOrdered (RunLlama.main_events mp prompt mt temp loadOk) = true
  ∧ wellOrdered (Benchmark.main_events mp n) = true
  ∧ wellOrdered (ChatLlama.main_events mp mt temp inputs) = true := by
  refine ⟨?_, ?_, ?_⟩
  · cases loadOk <;> rfl
  · simp [wellOrdered, Benchmark.main_events, isParse, preLoadOk, isLoad, isGen,
      countP_isLoad_map_gen]
  · simp [wellOrdered, ChatLlama.main_events, isParse, preLoadOk, isLoad, isGen,
      chatRun_no_load]

/-- C5: for every `num_runs ≥ 1`, `benchmark_model` calls the library
`generate` exactly `5 * num_runs` times — `num_runs` times for each of the
five fixed test prompts — always with `max_tokens = 256`,
`temperature = 0.7` and `top_p = 0.9`. -/
theorem C5_benchmark_generate_calls (m : Model) (tok : Tokenizer) (n : Nat)
    (hn : 1 ≤ n) :
    (benchmark_model_calls m tok n).length = 5 * n
  ∧ (∀ p ∈ test_prompts,
      (benchmark_model_calls m tok n).countP (fun c => c.prompt == p) = n)
  ∧ (∀ c ∈ benchmark_model_calls m tok n,
      c.max_tokens = 256 ∧ c.temperature = 7/10 ∧ c.top_p = 9/10) := by
  refine ⟨?_, ?_, ?_⟩
  · simp [benchmark_model_calls, test_prompts]
    ring
  · intro p hp
    fin_cases hp <;>
      simp [benchmark_model_calls, test_prompts, List.countP_map, bench_gen_call,
        Function.comp_def, List.countP_replicate]
  · intro c hc
    simp only [benchmark_model_calls, List.mem_flatMap, List.mem_map] at hc
    obtain ⟨p, _, _, _, rfl⟩ := hc
    exact ⟨rfl, rfl, rfl⟩

/-- C5 witness at `num_runs = 1`. -/
theorem C5_benchmark_generate_calls_witness :
    1 ≤ 1 ∧
    (benchmark_model_calls (.fromLoad default_model_path)
      (.fromLoad default_model_path) 1).length = 5 * 1 :=
  ⟨by decide,
   (C5_benchmark_generate_calls (.fromLoad default_model_path)
      (.fromLoad default_model_path) 1 (by decide)).1⟩

/-- C6: in every script the model and tokenizer passed to each `generate`
are exactly the values the single `load` call returned (one `load` per
trace, and every `generate` uses its result). -/
theorem C6_model_from_single_load (mp : Option String) (prompt : String)
    (mt : Nat) (temp : ℚ) (loadOk : Bool) (n : Nat)
    (inputs : List (String × GenOutcome)) :
    ((RunLlama.main_events mp prompt mt temp loadOk).countP isLoad = 1
      ∧ (RunLlama.main_events mp prompt mt temp loadOk).all
          (genUsesLoaded (mp.getD default_model_path)) = true)
  ∧ ((Benchmark.main_events mp n).countP isLoad = 1
      ∧ (Benchmark.main_events mp n).all
          (genUsesLoaded (mp.getD default_model_path)) = true)
  ∧ ((ChatLlama.main_events mp mt temp inputs).countP isLoad = 1
      ∧ (ChatLlama.main_events mp mt temp inputs).all
          (genUsesLoaded (mp.getD default_model_path)) = true) := by
  refine ⟨?_, ?_, ?_⟩
  · cases loadOk <;> exact ⟨rfl, by simp [RunLlama.main_events, genUsesLoaded,
      RunLlama.run_gen_call, isLoad]⟩
  · constructor
    · simp [Benchmark.main_events, List.countP_cons, isLoad, countP_isLoad_map_gen]
    · simp only [Benchmark.main_events, List.all_cons, Bool.and_eq_true]
      refine ⟨rfl, rfl, ?_⟩
      rw [List.all_eq_true]
      intro c hc
      simp only [Benchmark.benchmark_model_calls] at hc
      rw [List.mem_map] at hc
      obtain ⟨c', hc', rfl⟩ := hc
      rw [List.mem_flatMap] at hc'
      obtain ⟨p', hp', hc'⟩ := hc'
      rw [List.mem_map] at hc'
      obtain ⟨r, hr, rfl⟩ := hc'
      simp [genUsesLoaded, Benchmark.bench_gen_call]
  · constructor
    · simp [ChatLlama.main_events, List.countP_cons, isLoad, chatRun_no_load]
    · simp only [ChatLlama.main_events, List.all_cons, Bool.and_eq_true]
      exact ⟨rfl, rfl, chatRun_uses_model _ inputs _ rfl rfl⟩

end MLXDemo

namespace MLXDemo.Benchmark

theorem prompt_result_ok (encodeLen : String → ℚ) (sample : Nat → RunSample)
    (n : Nat) (p : String) (hn : 1 ≤ n)
    (ht : ∀ r, 0 < (sample r).time) :
    prompt_result encodeLen sample n p = .ok {
      prompt := p, input_tokens := encodeLen p,
      avg_output_tokens := ((List.range n).map (fun r => (sample r).tokens)).sum / n,
      avg_generation_time := ((List.range n).map (fun r => (sample r).time)).sum / n,
      avg_tokens_per_second :=
        (((List.range n).map (fun r => (sample r).tokens)).sum / n) /
          (((List.range n).map (fun r => (sample r).time)).sum / n) } := by
  have hS : 0 < ((List.range n).map (fun r => (sample r).time)).sum := by
    apply List.sum_pos
    · intro x hx
      simp only [List.mem_map] at hx
      obtain ⟨r, _, rfl⟩ := hx
      exact ht r
    · intro hc
      have := congrArg List.length hc
      simp at this
      omega
  have hn' : (0 : ℚ) < n := by exact_mod_cast Nat.lt_of_lt_of_le Nat.zero_lt_one hn
  have havg : ((List.range n).map (fun r => (sample r).time)).sum / (n : ℚ) ≠ 0 :=
    ne_of_gt (div_pos hS hn')
  have hn0 : ((n : ℚ)) ≠ 0 := ne_of_gt hn'
  unfold prompt_result pyDiv
  dsimp only
  simp only [List.length_map, List.length_range]
  rw [if_neg hn0]
  dsimp only [Bind.bind, Except.bind]
  rw [if_neg hn0]
  dsimp only [Bind.bind, Except.bind]
  rw [if_neg havg]

theorem benchmark_model_ok (encodeLen : String → ℚ) (sample : Nat → Nat → RunSample)
    (n : Nat) (hn : 1 ≤ n) (ht : ∀ i r, 0 < (sample i r).time) :
    ∃ s, benchmark_model encodeLen sample n = .ok s ∧ s.results.length = 5 := by
  have hS : ∀ i, 0 < ((List.range n).map (fun r => (sample i r).time)).sum := by
    intro i
    apply List.sum_pos
    · intro x hx
      simp only [List.mem_map] at hx
      obtain ⟨r, _, rfl⟩ := hx
      exact ht i r
    · intro hc
      have := congrArg List.length hc
      simp at this
      omega
  have hn' : (0 : ℚ) < n := by exact_mod_cast Nat.lt_of_lt_of_le Nat.zero_lt_one hn
  have havg : ∀ i, (0:ℚ) < ((List.range n).map (fun r => (sample i r).time)).sum / n :=
    fun i => div_pos (hS i) hn'
  unfold benchmark_model
  have hzip : test_prompts.zip (List.range test_prompts.length) =
      [("Hello, how are you?", 0),
       ("Explain the concept of machine learning in detail.", 1),
       ("Write a short story about a robot learning to paint.", 2),
       ("Describe the process of photosynthesis step by step with scientific accuracy.", 3),
       ("Generate a comprehensive analysis of the impact of artificial intelligence on modern society, including economic, social, and ethical considerations.", 4)] := rfl
  rw [hzip]
  simp only [List.mapM_cons, List.mapM_nil]
  rw [prompt_result_ok encodeLen (sample 0) n _ hn (ht 0),
      prompt_result_ok encodeLen (sample 1) n _ hn (ht 1),
      prompt_result_ok encodeLen (sample 2) n _ hn (ht 2),
      prompt_result_ok encodeLen (sample 3) n _ hn (ht 3),
      prompt_result_ok encodeLen (sample 4) n _ hn (ht 4)]
  dsimp only [Bind.bind, Except.bind, Pure.pure, Except.pure]
  unfold pyDiv
  rw [if_neg ?htot]
  case htot =>
    simp only [List.map_cons, List.map_nil, List.sum_cons, List.sum_nil]
    have := havg 0; have := havg 1; have := havg 2; have := havg 3; have := havg 4
    positivity
  dsimp only [Bind.bind, Except.bind]
  exact ⟨_, rfl, rfl⟩

end MLXDemo.Benchmark

namespace MLXDemo

open Benchmark

/-- C7: the arithmetic of `benchmark_model` is total for every
`num_runs ≥ 1` (assuming, as is physically the case, strictly positive
per-run generation times): the sweep returns a summary, and each per-prompt
average is the sum of exactly `num_runs` samples divided by `num_runs`.
With `num_runs = 0` the unguarded `sum(...) / len(generation_times)` raises
`ZeroDivisionError` — already at the first prompt, so the whole sweep
raises. -/
theorem C7_benchmark_division_totality (encodeLen : String → ℚ)
    (sample : Nat → Nat → RunSample) (n : Nat) (hn : 1 ≤ n)
    (ht : ∀ i r, 0 < (sample i r).time) :
    (∃ s, benchmark_model encodeLen sample n = .ok s ∧ s.results.length = 5)
  ∧ (∀ i p, prompt_result encodeLen (sample i) n p = .ok {
      prompt := p, input_tokens := encodeLen p,
      avg_output_tokens := ((List.range n).map (fun r => (sample i r).tokens)).sum / n,
      avg_generation_time := ((List.range n).map (fun r => (sample i r).time)).sum / n,
      avg_tokens_per_second :=
        (((List.range n).map (fun r => (sample i r).tokens)).sum / n) /
          (((List.range n).map (fun r => (sample i r).time)).sum / n) })
  ∧ (∀ i p, prompt_result encodeLen (sample i) 0 p = .error .zeroDivisionError)
  ∧ benchmark_model encodeLen sample 0 = .error .zeroDivisionError := by
  refine ⟨benchmark_model_ok encodeLen sample n hn ht, ?_, fun i p => rfl, rfl⟩
  intro i p
  exact prompt_result_ok encodeLen (sample i) n p hn (ht i)

/-- C7 witness: a concrete oracle with unit times, at `num_runs = 1` and
`num_runs = 0`. -/
theorem C7_benchmark_division_witness :
    (∃ s, benchmark_model (fun _ => 3) (fun _ _ => ⟨1, 2⟩) 1 = .ok s ∧
      s.results.length = 5)
  ∧ benchmark_model (fun _ => 3) (fun _ _ => ⟨1, 2⟩) 0
      = .error .zeroDivisionError :=
  ⟨(C7_benchmark_division_totality (fun _ => 3) (fun _ _ => ⟨1, 2⟩) 1
      (by decide) (fun i r => by norm_num)).1,
   (C7_benchmark_division_totality (fun _ => 3) (fun _ _ => ⟨1, 2⟩) 1
      (by decide) (fun i r => by norm_num)).2.2.2⟩

end MLXDemo

namespace MLXDemo

open ChatLlama

/-- C8: from the fresh state of `LLaMAChat.__init__`, the chat loop keeps the
conversation history alternating `"user"`, `"assistant"`, ... (so every entry
is one of the two roles); empty inputs and the commands
quit/exit/bye/help/history/stats leave it unchanged, `clear` empties it, and
a completed message turn appends exactly the user message and an assistant
message — the fixed apology string when the generation raised. -/
theorem C8_chat_history_invariant :
    (∀ (mp : Option String) (mt : Nat) (temp : ℚ)
        (inputs : List (String × GenOutcome)),
        rolesAlternateFrom true (chatRun (LLaMAChat_init mp mt temp) inputs).1 = true
      ∧ ∀ m ∈ (chatRun (LLaMAChat_init mp mt temp) inputs).1,
          m.role = "user" ∨ m.role = "assistant")
  ∧ (∀ st s g, pyStrip s = "" → chatStep st s g = (st, true, []))
  ∧ (∀ st s g, (pyLower (pyStrip s) = "quit" ∨ pyLower (pyStrip s) = "exit" ∨
        pyLower (pyStrip s) = "bye") → chatStep st s g = (st, false, []))
  ∧ (∀ st s g, (pyLower (pyStrip s) = "help" ∨ pyLower (pyStrip s) = "history" ∨
        pyLower (pyStrip s) = "stats") → chatStep st s g = (st, true, []))
  ∧ (∀ st s g, pyLower (pyStrip s) = "clear" →
        chatStep st s g = (clear_history st, true, []) ∧
        (clear_history st).conversation_history = [])
  ∧ (∀ st s r, isMessageInput s = true →
        (chatStep st s (.ok r)).1.conversation_history
          = st.conversation_history ++
              [⟨"user", pyStrip s⟩, ⟨"assistant", clean_response r⟩])
  ∧ (∀ st s e, isMessageInput s = true →
        (chatStep st s (.raised e)).1.conversation_history
          = st.conversation_history ++
              [⟨"user", pyStrip s⟩, ⟨"assistant", chatApology⟩]) := by
  have hmsg : ∀ (st : ChatState) (s : String) (g : GenOutcome),
      isMessageInput s = true →
      (chatStep st s g).1.conversation_history
        = st.conversation_history ++
            [⟨"user", pyStrip s⟩, ⟨"assistant", (generate_response g).1⟩] := by
    intro st s g h
    have h' := of_decide_eq_true h
    push_neg at h'
    obtain ⟨h1, h2, h3, h4, h5, h6, h7, h8⟩ := h'
    unfold chatStep
    rw [if_neg h1, if_neg (by tauto), if_neg h5, if_neg h6, if_neg h7, if_neg h8]
    simp [add_to_history]
  refine ⟨?_, ?_, ?_, ?_, ?_, ?_, ?_⟩
  · intro mp mt temp inputs
    have hg := goodHistory_chatRun inputs (LLaMAChat_init mp mt temp) ⟨rfl, rfl⟩
    exact ⟨hg.1, rolesAlternateFrom_mem _ true hg.1⟩
  · intro st s g h
    unfold chatStep
    rw [if_pos h]
  · intro st s g h
    have hne : ¬ (pyStrip s = "") := by
      intro he
      rcases h with h | h | h <;> rw [he] at h <;> exact absurd h (by decide)
    unfold chatStep
    rw [if_neg hne, if_pos h]
  · intro st s g h
    have hne : ¬ (pyStrip s = "") := by
      intro he
      rcases h with h | h | h <;> rw [he] at h <;> exact absurd h (by decide)
    have hq : ¬ (pyLower (pyStrip s) = "quit" ∨ pyLower (pyStrip s) = "exit" ∨
        pyLower (pyStrip s) = "bye") := by
      rcases h with h | h | h <;> rw [h] <;> decide
    have hcl : ¬ (pyLower (pyStrip s) = "clear") := by
      rcases h with h | h | h <;> rw [h] <;> decide
    unfold chatStep
    rcases h with h | h | h
    · rw [if_neg hne, if_neg hq, if_neg hcl, if_pos h]
    · rw [if_neg hne, if_neg hq, if_neg hcl,
        if_neg (by rw [h]; decide), if_pos h]
    · rw [if_neg hne, if_neg hq, if_neg hcl,
        if_neg (by rw [h]; decide), if_neg (by rw [h]; decide), if_pos h]
  · intro st s g h
    have hne : ¬ (pyStrip s = "") := by
      intro he; rw [he] at h; exact absurd h (by decide)
    have hq : ¬ (pyLower (pyStrip s) = "quit" ∨ pyLower (pyStrip s) = "exit" ∨
        pyLower (pyStrip s) = "bye") := by
      rw [h]; decide
    refine ⟨?_, rfl⟩
    unfold chatStep
    rw [if_neg hne, if_neg hq, if_pos h]
  · intro st s r h
    exact hmsg st s (.ok r) h
  · intro st s e h
    exact hmsg st s (.raised e) h

/-- C8 witness: the branch equations at a concrete state and concrete
inputs (blank line, "Quit", "STATS", "clear", and two plain messages). -/
theorem C8_chat_history_witness :
    (pyStrip "   " = "" ∧
      chatStep (LLaMAChat_init none 512 (7/10)) "   " (.ok "r")
        = (LLaMAChat_init none 512 (7/10), true, []))
  ∧ (pyLower (pyStrip " Quit ") = "quit" ∧
      chatStep (LLaMAChat_init none 512 (7/10)) " Quit " (.ok "r")
        = (LLaMAChat_init none 512 (7/10), false, []))
  ∧ (pyLower (pyStrip "STATS") = "stats" ∧
      chatStep (LLaMAChat_init none 512 (7/10)) "STATS" (.ok "r")
        = (LLaMAChat_init none 512 (7/10), true, []))
  ∧ (pyLower (pyStrip "clear") = "clear" ∧
      chatStep (LLaMAChat_init none 512 (7/10)) "clear" (.ok "r")
        = (clear_history (LLaMAChat_init none 512 (7/10)), true, []))
  ∧ (isMessageInput "Hello" = true ∧
      (chatStep (LLaMAChat_init none 512 (7/10)) "Hello" (.ok "ans")).1.conversation_history
        = (LLaMAChat_init none 512 (7/10)).conversation_history ++
            [⟨"user", pyStrip "Hello"⟩, ⟨"assistant", clean_response "ans"⟩])
  ∧ (isMessageInput "Hello" = true ∧
      (chatStep (LLaMAChat_init none 512 (7/10)) "Hello" (.raised "boom")).1.conversation_history
        = (LLaMAChat_init none 512 (7/10)).conversation_history ++
            [⟨"user", pyStrip "Hello"⟩, ⟨"assistant", chatApology⟩]) :=
  ⟨⟨by decide, C8_chat_history_invariant.2.1 _ "   " _ (by decide)⟩,
   ⟨by decide, C8_chat_history_invariant.2.2.1 _ " Quit " _ (by decide)⟩,
   ⟨by decide, C8_chat_history_invariant.2.2.2.1 _ "STATS" _ (by decide)⟩,
   ⟨by decide, (C8_chat_history_invariant.2.2.2.2.1 _ "clear" (.ok "r") (by decide)).1⟩,
   ⟨by decide, C8_chat_history_invariant.2.2.2.2.2.1 _ "Hello" "ans" (by decide)⟩,
   ⟨by decide, C8_chat_history_invariant.2.2.2.2.2.2 _ "Hello" "boom" (by decide)⟩⟩

end MLXDemo
